import Mathlib

/-!
Verification of `src/Programs/wavm-run/wavm-run.cpp` (WAVM standalone runner).

The development shallowly embeds the data model and the operations of the
runner: the import resolver (`RootResolver::resolve`), the stub factory
(`RootResolver::getStubObject`), the link pass, the run pipeline (`run`),
and the command-line scan (`main`).  Parts of the behaviour live in the
WAVM library rather than in this file (the structural compatibility check
`isA`, the engine's execution of the `unreachable` operator, the zero
default of `IR::UntaggedValue`, the link loop of `Runtime::linkModule`);
those are modelled from the specification and are marked as such in their
doc comments.
-/

namespace WavmRun

/-- WebAssembly value types as used by the runner (`IR::ValueType`). -/
inductive ValueType where
  | i32
  | i64
  | f32
  | f64
  | v128
  deriving DecidableEq, Repr

/-- Runtime values (`IR::Value`): a tagged union over the value types.
Float payloads are carried as raw bit patterns so that the model stays
exact. -/
inductive Value where
  | i32 (n : Int)
  | i64 (n : Int)
  | f32Bits (b : Nat)
  | f64Bits (b : Nat)
  | v128Bits (b : Nat)
  deriving DecidableEq, Repr

/-- The tag of a `Value`. -/
def Value.type : Value → ValueType
  | .i32 _ => .i32
  | .i64 _ => .i64
  | .f32Bits _ => .f32
  | .f64Bits _ => .f64
  | .v128Bits _ => .v128

/-- Modelled from the spec: `IR::UntaggedValue()` (WAVM library, not in
`src/`) zero-initializes its storage, so
`IR::Value(valueType, IR::UntaggedValue())` is the zero/default value of
`valueType`. -/
def zeroValue : ValueType → Value
  | .i32 => .i32 0
  | .i64 => .i64 0
  | .f32 => .f32Bits 0
  | .f64 => .f64Bits 0
  | .v128 => .v128Bits 0

/-- A function signature (`IR::FunctionType`): parameter and result type
sequences. -/
structure FunctionType where
  params : List ValueType
  results : List ValueType
  deriving DecidableEq, Repr

/-- Size limits of a memory (`IR::MemoryType`): initial page count and an
optional maximum. -/
structure MemoryType where
  min : Nat
  max : Option Nat
  deriving DecidableEq, Repr

/-- Reference kinds for table elements. -/
inductive RefKind where
  | funcref
  | anyref
  deriving DecidableEq, Repr

/-- A table type (`IR::TableType`): element kind plus size limits. -/
structure TableType where
  elem : RefKind
  min : Nat
  max : Option Nat
  deriving DecidableEq, Repr

/-- A global type (`IR::GlobalType`): value type and mutability. -/
structure GlobalType where
  valueType : ValueType
  isMutable : Bool
  deriving DecidableEq, Repr

/-- The closed variant of extern types (`IR::ExternType`): function,
table, memory, global, exception type. -/
inductive ExternType where
  | func (type : FunctionType)
  | table (type : TableType)
  | mem (type : MemoryType)
  | global (type : GlobalType)
  | exn (params : List ValueType)
  deriving DecidableEq, Repr

/-- The instructions the runner's stub generator emits
(`OperatorEncoderStream::unreachable` / `::end`). -/
inductive Instr where
  | unreachable
  | end_
  deriving DecidableEq, Repr

/-- A runtime object (`Runtime::Object`): the payload that an export
table binds a name to.  Function objects carry their compiled body and
the disassembly label they were given; memories/tables carry their debug
name; globals carry their current value. -/
inductive Object where
  | func (type : FunctionType) (body : List Instr) (label : String)
  | table (type : TableType) (name : String)
  | mem (type : MemoryType) (name : String)
  | global (type : GlobalType) (value : Value)
  | exn (params : List ValueType) (name : String)
  deriving DecidableEq, Repr

/-- `Runtime::getObjectType`: the extern type of an object. -/
def getObjectType : Object → ExternType
  | .func t _ _ => .func t
  | .table t _ => .table t
  | .mem t _ => .mem t
  | .global t _ => .global t
  | .exn p _ => .exn p

/-- Modelled from the spec: limits compatibility used by the structural
check — "requested limits must be satisfiable by the actual object's
limits".  `actual` covers `requested` when its minimum is at least the
requested minimum and its maximum does not exceed a requested finite
maximum. -/
def limitsCover (actual requested : Nat × Option Nat) : Bool :=
  requested.1 ≤ actual.1 &&
    match requested.2 with
    | none => true
    | some r =>
      match actual.2 with
      | some a => a ≤ r
      | none => false

/-- Modelled from the spec: the structural compatibility check
`Runtime::isA(object, type)` (WAVM library, not in `src/`).  Kinds must
agree; functions and globals and exception types match structurally
(equality of signatures), memories and tables additionally require the
requested limits to be satisfiable by the actual object's limits. -/
def isA (obj : Object) (type : ExternType) : Bool :=
  match getObjectType obj, type with
  | .func a, .func b => a = b
  | .table a, .table b => a.elem = b.elem && limitsCover (a.min, a.max) (b.min, b.max)
  | .mem a, .mem b => limitsCover (a.min, a.max) (b.min, b.max)
  | .global a, .global b => a = b
  | .exn a, .exn b => a = b
  | _, _ => false

/-- An export declaration of an IR module (`IR::Export`): name, extern
kind code, and index into the corresponding index space. -/
structure ExportDecl where
  name : String
  kind : Nat
  index : Nat
  deriving DecidableEq, Repr

/-- A function definition of an IR module (`IR::FunctionDef`): type
index, local declarations, and code. -/
structure FunctionDef where
  typeIndex : Nat
  locals : List ValueType
  code : List Instr
  deriving DecidableEq, Repr

/-- The extern-kind codes of the switch in `getStubObject`
(`IR::ExternKind`): the five named enumerators. -/
def kindFunction : Nat := 0

/-- Extern-kind code of tables. -/
def kindTable : Nat := 1

/-- Extern-kind code of memories. -/
def kindMemory : Nat := 2

/-- Extern-kind code of globals. -/
def kindGlobal : Nat := 3

/-- Extern-kind code of exception types. -/
def kindExceptionType : Nat := 4

/-- The kind code of an extern type (`ExternType::kind`). -/
def externKindCode : ExternType → Nat
  | .func _ => kindFunction
  | .table _ => kindTable
  | .mem _ => kindMemory
  | .global _ => kindGlobal
  | .exn _ => kindExceptionType

/-- The slice of `IR::Module` that the stub generator populates: declared
types, function definitions, exports, and the disassembly names the
runner attaches to the functions. -/
structure IRModule where
  types : List FunctionType
  functionDefs : List FunctionDef
  exports : List ExportDecl
  functionNames : List String
  deriving DecidableEq, Repr

/-- The stub module built by the `ExternKind::function` case of
`RootResolver::getStubObject`: one type (the requested signature), one
function whose body is the encoded `unreachable`/`end` sequence, one
function export named `"importStub"`, and a disassembly name embedding
the export name. -/
def buildStubModule (exportName : String) (ft : FunctionType) : IRModule :=
  { types := [ft]
    functionDefs := [{ typeIndex := 0, locals := [], code := [.unreachable, .end_] }]
    exports := [{ name := "importStub", kind := kindFunction, index := 0 }]
    functionNames := ["importStub: " ++ exportName] }

/-- An instantiated module's export table: export name to object. -/
abbrev Instance := List (String × Object)

/-- `Runtime::getInstanceExport`: look a name up in an instance's export
table (null when absent). -/
def getInstanceExport (inst : Instance) (name : String) : Option Object :=
  match inst with
  | [] => none
  | (n, o) :: rest => if n = name then some o else getInstanceExport rest name

/-- Modelled from the spec: `Runtime::compileModule` followed by
`Runtime::instantiateModule` (the external execution engine, not in
`src/`) binds each function export of the module to a callable object
whose signature is the function's declared type and whose body is the
function's code, labelled with the function's disassembly name. -/
def instantiateIRModule (m : IRModule) : Instance :=
  m.exports.filterMap fun e =>
    if e.kind = kindFunction then
      let d := m.functionDefs.getD e.index { typeIndex := 0, locals := [], code := [] }
      some (e.name,
        Object.func (m.types.getD d.typeIndex { params := [], results := [] }) d.code
          (m.functionNames.getD e.index ""))
    else none

/-- `RootResolver::getStubObject`: synthesize a placeholder object for an
unresolved import.  Functions are materialized by building, compiling and
instantiating the stub module; memories, tables, globals and exception
types are allocated directly with the requested type. -/
def getStubObject (exportName : String) (type : ExternType) : Object :=
  match type with
  | .func ft =>
    match getInstanceExport (instantiateIRModule (buildStubModule exportName ft)) "importStub" with
    | some o => o
    | none => Object.func ft [] ""
  | .mem mt => Object.mem mt exportName
  | .table tt => Object.table tt exportName
  | .global gt => Object.global gt (zeroValue gt.valueType)
  | .exn ps => Object.exn ps "importStub"

/-- The action selected by the `switch (type.kind)` statement of
`getStubObject`.  `fatalUnreachable` is the `default:` branch's call to
`Errors::unreachable()`, which aborts the process with an internal
invariant fault rather than returning or raising a recoverable error. -/
inductive StubAction where
  | makeFunctionStub
  | makeTableStub
  | makeMemoryStub
  | makeGlobalStub
  | makeExceptionTypeStub
  | fatalUnreachable
  deriving DecidableEq, Repr

/-- The kind dispatch of `getStubObject` over the integer-backed
`ExternKind` enum value: one case per named enumerator, and the
`default:` branch for every other value. -/
def stubDispatch (kind : Nat) : StubAction :=
  if kind = kindFunction then .makeFunctionStub
  else if kind = kindTable then .makeTableStub
  else if kind = kindMemory then .makeMemoryStub
  else if kind = kindGlobal then .makeGlobalStub
  else if kind = kindExceptionType then .makeExceptionTypeStub
  else .fatalUnreachable

/-- The named-instance registry of `RootResolver`
(`moduleNameToInstanceMap`): module name to instantiated module. -/
abbrev Registry := List (String × Instance)

/-- Look a module name up in the registry (`HashMap::get`). -/
def registryGet (reg : Registry) (name : String) : Option Instance :=
  match reg with
  | [] => none
  | (n, i) :: rest => if n = name then some i else registryGet rest name

/-- `RootResolver::resolve`: look the module up in the registry and the
export up in the instance; a found export is bound exactly when it passes
the `isA` check, a found export failing the check makes resolution fail
(`none`), and a missing module or missing export falls through to the
stub factory. -/
def resolve (reg : Registry) (moduleName exportName : String) (type : ExternType) :
    Option Object :=
  match registryGet reg moduleName with
  | some inst =>
    match getInstanceExport inst exportName with
    | some obj => if isA obj type then some obj else none
    | none => some (getStubObject exportName type)
  | none => some (getStubObject exportName type)

/-- `<stdlib.h>` success status. -/
def EXIT_SUCCESS : Int := 0

/-- `<stdlib.h>` failure status. -/
def EXIT_FAILURE : Int := 1

/-- An import declaration of the main module: module name, export name,
expected extern type. -/
structure ImportDecl where
  moduleName : String
  exportName : String
  type : ExternType
  deriving DecidableEq, Repr

/-- Modelled from the spec: the link pass of `Runtime::linkModule` (WAVM
library, not in `src/`) visits the import declarations in order, resolves
each through the resolver, collects the bound objects in order, and
collects every failed resolution into the missing-import list without
stopping early. -/
def linkImports (reg : Registry) : List ImportDecl → List Object × List ImportDecl
  | [] => ([], [])
  | d :: rest =>
    let r := linkImports reg rest
    match resolve reg d.moduleName d.exportName d.type with
    | some o => (o :: r.1, r.2)
    | none => (r.1, d :: r.2)

/-- `LinkResult`: resolved imports, missing imports, and the success
flag (`success` is defined as an empty missing-import list). -/
structure LinkResult where
  resolvedImports : List Object
  missingImports : List ImportDecl
  deriving DecidableEq, Repr

/-- The success flag of a link result. -/
def LinkResult.success (lr : LinkResult) : Bool := lr.missingImports = []

/-- Link a module's imports against the registry. -/
def linkModule (reg : Registry) (imports : List ImportDecl) : LinkResult :=
  let (objs, missing) := linkImports reg imports
  { resolvedImports := objs, missingImports := missing }

/-- Modelled from the spec: the engine's execution of a function body
(not in `src/`) — the unconditional-trap operator (`unreachable`)
diverges via a trap, the `end` marker terminates the body normally.  The
argument list is taken so the statement "traps regardless of arguments"
is about all argument lists; neither modelled instruction consults it. -/
def execBody (body : List Instr) (args : List Value) : Option (List Value) :=
  match body, args with
  | [], _ => some []
  | .unreachable :: _, _ => none
  | .end_ :: _, _ => some []

/-- `Runtime::asFunctionNullable`: the object when it is a function,
null otherwise. -/
def asFunctionNullable : Option Object → Option Object
  | some (Object.func t b l) => some (Object.func t b l)
  | _ => none

/-- The entry-point lookup of `run`: the export named `"main"` as a
function, and only when that yields null, the export named `"_main"`. -/
def lookupEntry (exports : Instance) : Option Object :=
  match asFunctionNullable (getInstanceExport exports "main") with
  | some f => some f
  | none => asFunctionNullable (getInstanceExport exports "_main")

/-- The parameter arity of an object (the length of
`getFunctionType(function).params()`; zero for non-functions). -/
def objectArity : Object → Nat
  | .func t _ _ => t.params.length
  | _ => 0

/-- The exit-status mapping at the end of `run`: exactly one result of
type `i32` becomes the exit status literally; every other result shape
maps to `EXIT_SUCCESS`. -/
def mapResults (results : List Value) : Int :=
  match results with
  | [Value.i32 n] => n
  | _ => EXIT_SUCCESS

/-- The argument-string list built by the arity-2 branch of `run`: the
program filename followed by every remaining argv token. -/
def buildArgStrings (filename : String) (args : List String) : List String :=
  filename :: args

/-- The diagnostics `run` prints before aborting. -/
inductive Diag where
  /-- "Failed to link module:" followed by one missing-import line per
  entry. -/
  | linkFailed (missing : List ImportDecl)
  /-- "Module does not export main function". -/
  | noMainExport
  /-- "WebAssembly function requires ... argument(s), but only 0 or 2
  can be passed!". -/
  | badArity (n : Nat)
  deriving DecidableEq, Repr

/-- The stages of the run pipeline, in the order `run` performs them. -/
inductive Stage where
  | load
  | compile
  | instantiateShim
  | link
  | instantiateMain
  | runStart
  | shimGlobalInit
  | lookupEntry
  | marshalArgs
  | invoke
  | mapExit
  deriving DecidableEq, Repr

/-- How a run terminates: a process exit status, or a fatal
`wavmAssert` violation (the `wavmAssert(emscriptenInstance)` in the
arity-2 branch). -/
inductive ExitRes where
  | status (n : Int)
  | fatalAssert
  deriving DecidableEq, Repr

/-- The environment a run executes in: the outcomes of the external
collaborators (file load/parse, shim instantiation, main-module
instantiation, the entry call's returned results) plus the module's
imports and exports and the command line. -/
structure RunEnv where
  /-- `loadModule` succeeded (file readable and parsed). -/
  loadOk : Bool
  /-- `Emscripten::instantiate` returned a non-null instance. -/
  shimPresent : Bool
  /-- Export table of the shim's `env` namespace. -/
  shimEnv : Instance
  /-- Export table of the shim's `asm2wasm` namespace. -/
  shimAsm2wasm : Instance
  /-- Import declarations of the main module. -/
  imports : List ImportDecl
  /-- `Runtime::instantiateModule` returned a non-null instance. -/
  instantiateOk : Bool
  /-- The main module has a start function. -/
  hasStart : Bool
  /-- Export table of the instantiated main module. -/
  exports : Instance
  /-- `options.filename`. -/
  filename : String
  /-- The remaining argv tokens (`options.args`). -/
  cliArgs : List String
  /-- The results returned by `invokeFunctionChecked` on the entry
  point (the call is a blocking call into the external engine). -/
  invokeResults : List Value

/-- The registry `run` populates before linking: the shim's `env` and
`asm2wasm` namespaces when the shim was instantiated, empty otherwise. -/
def RunEnv.registry (env : RunEnv) : Registry :=
  if env.shimPresent then
    [("env", env.shimEnv), ("asm2wasm", env.shimAsm2wasm)]
  else []

/-- The outcome of a run: the pipeline stages executed in order, the
diagnostics printed, the argument strings marshalled through the shim
(when the arity-2 branch ran), and the termination. -/
structure RunOutcome where
  trace : List Stage
  diags : List Diag
  marshaled : Option (List String)
  exit : ExitRes
  deriving DecidableEq, Repr

/-- The `run` function of the runner as a pipeline over `RunEnv`:
load, compile, shim instantiation, link (abort on failure), main-module
instantiation (abort on null), optional start function, the Emscripten
global-initializer call, entry-point lookup (abort with `noMainExport`
when neither `main` nor `_main` is an exported function), the
arity dispatch (0: no marshalling; 2: marshal filename and argv tokens,
asserting the shim is present; otherwise abort with `badArity`), the
invocation, and the exit-status mapping. -/
def runModel (env : RunEnv) : RunOutcome :=
  if ¬env.loadOk then
    { trace := [.load], diags := [], marshaled := none, exit := .status EXIT_FAILURE }
  else
    let lr := linkModule env.registry env.imports
    if ¬lr.success then
      { trace := [.load, .compile, .instantiateShim, .link]
        diags := [.linkFailed lr.missingImports]
        marshaled := none
        exit := .status EXIT_FAILURE }
    else if ¬env.instantiateOk then
      { trace := [.load, .compile, .instantiateShim, .link, .instantiateMain]
        diags := [], marshaled := none, exit := .status EXIT_FAILURE }
    else
      let preLookup := [Stage.load, Stage.compile, Stage.instantiateShim, Stage.link,
        Stage.instantiateMain] ++ (if env.hasStart then [Stage.runStart] else []) ++
        [Stage.shimGlobalInit, Stage.lookupEntry]
      match lookupEntry env.exports with
      | none =>
        { trace := preLookup, diags := [.noMainExport], marshaled := none
          exit := .status EXIT_FAILURE }
      | some f =>
        if objectArity f = 2 then
          if env.shimPresent then
            { trace := preLookup ++ [.marshalArgs, .invoke, .mapExit]
              diags := []
              marshaled := some (buildArgStrings env.filename env.cliArgs)
              exit := .status (mapResults env.invokeResults) }
          else
            { trace := preLookup ++ [.marshalArgs], diags := [], marshaled := none
              exit := .fatalAssert }
        else if objectArity f > 0 then
          { trace := preLookup, diags := [.badArity (objectArity f)], marshaled := none
            exit := .status EXIT_FAILURE }
        else
          { trace := preLookup ++ [.invoke, .mapExit], diags := [], marshaled := none
            exit := .status (mapResults env.invokeResults) }

/-- The result of the argument scan in `main`. -/
inductive ScanResult where
  /-- `--help` or `-h` was seen: print usage, exit with success. -/
  | helpExit
  /-- The argv tokens ran out with no filename: print usage, exit with
  failure. -/
  | noFilename
  /-- Run the file with the given remaining tokens as program
  arguments. -/
  | runWith (filename : String) (args : List String)
  deriving DecidableEq, Repr

/-- The scan loop of `main` over the argv tokens after the program name:
a `--help`/`-h` token exits with usage (this test comes first, before
the filename test); otherwise the first token becomes the filename;
otherwise the loop breaks, leaving `options.args` at the current token
so that it and all following tokens are the program arguments. -/
def scanLoop (filename : Option String) : List String → ScanResult
  | [] =>
    match filename with
    | some f => .runWith f []
    | none => .noFilename
  | tok :: rest =>
    if tok = "--help" ∨ tok = "-h" then .helpExit
    else
      match filename with
      | none => scanLoop (some tok) rest
      | some f => .runWith f (tok :: rest)

/-- The command-line scan of `main` (over `argv[1..]`). -/
def scanArgs (argvTail : List String) : ScanResult :=
  scanLoop none argvTail

/-! ### Helper lemmas -/

theorem limitsCover_self (p : Nat × Option Nat) : limitsCover p p = true := by
  cases p with
  | mk a b => cases b <;> simp [limitsCover]

theorem getStubObject_func_eq (e : String) (ft : FunctionType) :
    getStubObject e (.func ft) = Object.func ft [.unreachable, .end_] ("importStub: " ++ e) := by
  simp [getStubObject, instantiateIRModule, buildStubModule, getInstanceExport, kindFunction]

theorem isA_getStubObject (e : String) (t : ExternType) : isA (getStubObject e t) t = true := by
  cases t with
  | func ft => rw [getStubObject_func_eq]; simp [isA, getObjectType]
  | table tt => simp [getStubObject, isA, getObjectType, limitsCover_self]
  | mem mt => simp [getStubObject, isA, getObjectType, limitsCover_self]
  | global gt => simp [getStubObject, isA, getObjectType]
  | exn ps => simp [getStubObject, isA, getObjectType]

theorem mem_missing_of_resolve_none (reg : Registry) (d : ImportDecl)
    (imports : List ImportDecl) (hd : d ∈ imports)
    (hres : resolve reg d.moduleName d.exportName d.type = none) :
    d ∈ (linkImports reg imports).2 := by
  induction imports with
  | nil => cases hd
  | cons a rest ih =>
    rcases List.mem_cons.mp hd with h | h
    · subst h
      simp only [linkImports, hres]
      exact List.mem_cons_self d _
    · have hmem := ih h
      simp only [linkImports]
      cases hcase : resolve reg a.moduleName a.exportName a.type with
      | some o => simpa using hmem
      | none => simpa using Or.inr hmem

theorem linkModule_fail_of_resolve_none (reg : Registry) (d : ImportDecl)
    (imports : List ImportDecl) (hd : d ∈ imports)
    (hres : resolve reg d.moduleName d.exportName d.type = none) :
    (linkModule reg imports).success = false := by
  have hmem := mem_missing_of_resolve_none reg d imports hd hres
  simp only [linkModule, LinkResult.success]
  simp only [decide_eq_false_iff_not]
  intro hempty
  rw [hempty] at hmem
  cases hmem

theorem runModel_link_fail (env : RunEnv) (hload : env.loadOk = true)
    (hlink : (linkModule env.registry env.imports).success = false) :
    runModel env =
      { trace := [.load, .compile, .instantiateShim, .link]
        diags := [.linkFailed (linkModule env.registry env.imports).missingImports]
        marshaled := none
        exit := .status EXIT_FAILURE } := by
  unfold runModel
  simp [hload, hlink]

theorem runModel_ok (env : RunEnv) (hload : env.loadOk = true)
    (hlink : (linkModule env.registry env.imports).success = true)
    (hinst : env.instantiateOk = true) :
    runModel env =
      let preLookup := [Stage.load, Stage.compile, Stage.instantiateShim, Stage.link,
        Stage.instantiateMain] ++ (if env.hasStart then [Stage.runStart] else []) ++
        [Stage.shimGlobalInit, Stage.lookupEntry]
      match lookupEntry env.exports with
      | none =>
        { trace := preLookup, diags := [.noMainExport], marshaled := none
          exit := .status EXIT_FAILURE }
      | some f =>
        if objectArity f = 2 then
          if env.shimPresent then
            { trace := preLookup ++ [.marshalArgs, .invoke, .mapExit]
              diags := []
              marshaled := some (buildArgStrings env.filename env.cliArgs)
              exit := .status (mapResults env.invokeResults) }
          else
            { trace := preLookup ++ [.marshalArgs], diags := [], marshaled := none
              exit := .fatalAssert }
        else if objectArity f > 0 then
          { trace := preLookup, diags := [.badArity (objectArity f)], marshaled := none
            exit := .status EXIT_FAILURE }
        else
          { trace := preLookup ++ [.invoke, .mapExit], diags := [], marshaled := none
            exit := .status (mapResults env.invokeResults) } := by
  unfold runModel
  simp [hload, hlink, hinst]

/-! ### Claim theorems -/

/-- C1: `resolve` is a trichotomy.  When the registry maps the module
name to an instance exporting the name with a compatible type, that
exact object is bound and resolution succeeds; when the module name is
unregistered or the export name absent, resolution succeeds by binding
the synthesized stub, which satisfies the expected type; when a
same-named export exists with an incompatible type, resolution fails,
the import ends up in the missing-import list, the link fails, and the
run aborts before the main module is instantiated. -/
theorem C1_resolve_trichotomy (reg : Registry) (mn en : String) (t : ExternType) :
    (∀ inst obj, registryGet reg mn = some inst →
        getInstanceExport inst en = some obj →
        isA obj t = true → resolve reg mn en t = some obj)
    ∧ (registryGet reg mn = none →
        resolve reg mn en t = some (getStubObject en t)
          ∧ isA (getStubObject en t) t = true)
    ∧ (∀ inst, registryGet reg mn = some inst →
        getInstanceExport inst en = none →
        resolve reg mn en t = some (getStubObject en t)
          ∧ isA (getStubObject en t) t = true)
    ∧ (∀ inst obj, registryGet reg mn = some inst →
        getInstanceExport inst en = some obj →
        isA obj t = false →
        resolve reg mn en t = none
          ∧ ∀ env : RunEnv, env.loadOk = true → env.registry = reg →
              (⟨mn, en, t⟩ : ImportDecl) ∈ env.imports →
              Stage.instantiateMain ∉ (runModel env).trace
                ∧ (runModel env).exit = .status EXIT_FAILURE) := by
  refine ⟨?_, ?_, ?_, ?_⟩
  · intro inst obj h1 h2 h3
    simp [resolve, h1, h2, h3]
  · intro h1
    exact ⟨by simp [resolve, h1], isA_getStubObject en t⟩
  · intro inst h1 h2
    exact ⟨by simp [resolve, h1, h2], isA_getStubObject en t⟩
  · intro inst obj h1 h2 h3
    have hres : resolve reg mn en t = none := by simp [resolve, h1, h2, h3]
    refine ⟨hres, ?_⟩
    intro env hload hreg hmem
    have hfail : (linkModule env.registry env.imports).success = false := by
      apply linkModule_fail_of_resolve_none env.registry ⟨mn, en, t⟩ env.imports hmem
      rw [hreg]
      exact hres
    rw [runModel_link_fail env hload hfail]
    constructor
    · show Stage.instantiateMain ∉ [Stage.load, Stage.compile, Stage.instantiateShim, Stage.link]
      decide
    · rfl

/-- Registry for the C1 witness: module `env` exports an immutable
`i32` global named `f`. -/
def regW : Registry :=
  [("env", [("f", Object.global { valueType := .i32, isMutable := false } (Value.i32 5))])]

/-- Witness for C1: on `regW`, a matching import binds the exact
exported global, an unregistered module name binds the stub, and a
type-mismatched import fails. -/
theorem C1_witness :
    resolve regW "env" "f" (ExternType.global { valueType := .i32, isMutable := false })
      = some (Object.global { valueType := .i32, isMutable := false } (Value.i32 5))
    ∧ resolve regW "other" "g" (ExternType.global { valueType := .i32, isMutable := false })
      = some (getStubObject "g" (ExternType.global { valueType := .i32, isMutable := false }))
    ∧ resolve regW "env" "f" (ExternType.global { valueType := .i64, isMutable := false })
      = none :=
  ⟨(C1_resolve_trichotomy regW "env" "f"
      (ExternType.global { valueType := .i32, isMutable := false })).1
      [("f", Object.global { valueType := .i32, isMutable := false } (Value.i32 5))]
      (Object.global { valueType := .i32, isMutable := false } (Value.i32 5))
      (by decide) (by decide) (by decide),
   ((C1_resolve_trichotomy regW "other" "g"
      (ExternType.global { valueType := .i32, isMutable := false })).2.1 (by decide)).1,
   ((C1_resolve_trichotomy regW "env" "f"
      (ExternType.global { valueType := .i64, isMutable := false })).2.2.2
      [("f", Object.global { valueType := .i32, isMutable := false } (Value.i32 5))]
      (Object.global { valueType := .i32, isMutable := false } (Value.i32 5))
      (by decide) (by decide) (by decide)).1⟩

/-- C2: the stub module built for a function import has exactly the
requested signature as its only type, one function whose body is the
unconditional-trap instruction followed by the normal end marker, one
function export named `importStub`, and a disassembly name embedding the
export name; instantiating it yields exactly that function object, which
is what `getStubObject` returns, and executing the stub body traps for
every argument list. -/
theorem C2_function_stub_traps (e : String) (ft : FunctionType) (args : List Value) :
    (buildStubModule e ft).types = [ft]
    ∧ (buildStubModule e ft).functionDefs =
        [{ typeIndex := 0, locals := [], code := [.unreachable, .end_] }]
    ∧ (buildStubModule e ft).exports =
        [{ name := "importStub", kind := kindFunction, index := 0 }]
    ∧ (buildStubModule e ft).functionNames = ["importStub: " ++ e]
    ∧ getInstanceExport (instantiateIRModule (buildStubModule e ft)) "importStub"
        = some (Object.func ft [.unreachable, .end_] ("importStub: " ++ e))
    ∧ getStubObject e (.func ft) = Object.func ft [.unreachable, .end_] ("importStub: " ++ e)
    ∧ execBody [.unreachable, .end_] args = none := by
  refine ⟨rfl, rfl, rfl, rfl, ?_, getStubObject_func_eq e ft, rfl⟩
  simp [instantiateIRModule, buildStubModule, getInstanceExport, kindFunction]

/-- C5: the exit-status mapping returns a single `i32` result literally,
and maps zero results, a single non-`i32` result, and multiple results
to `EXIT_SUCCESS`. -/
theorem C5_exit_status_mapping :
    (∀ n : Int, mapResults [Value.i32 n] = n)
    ∧ mapResults [] = EXIT_SUCCESS
    ∧ (∀ v : Value, v.type ≠ ValueType.i32 → mapResults [v] = EXIT_SUCCESS)
    ∧ (∀ v w : Value, ∀ rs : List Value, mapResults (v :: w :: rs) = EXIT_SUCCESS) := by
  refine ⟨fun n => rfl, rfl, ?_, ?_⟩
  · intro v hv
    cases v with
    | i32 n => exact absurd rfl hv
    | i64 n => rfl
    | f32Bits b => rfl
    | f64Bits b => rfl
    | v128Bits b => rfl
  · intro v w rs
    cases v <;> rfl

/-- Witness for C5: a single `i32 42` maps to 42, a single `i64` maps
to the success status. -/
theorem C5_witness :
    mapResults [Value.i32 42] = 42 ∧ mapResults [Value.i64 3] = EXIT_SUCCESS :=
  ⟨C5_exit_status_mapping.1 42,
   C5_exit_status_mapping.2.2.1 (Value.i64 3) (by decide)⟩

/-- C8: every kind value outside the five named enumerators reaches the
default branch of the stub factory's switch, which is the fatal
invariant fault (`Errors::unreachable()`, aborting the process), and no
extern type of the closed variant ever reaches it. -/
theorem C8_default_branch_fatal :
    (∀ k : Nat, k ≠ kindFunction → k ≠ kindTable → k ≠ kindMemory → k ≠ kindGlobal →
        k ≠ kindExceptionType → stubDispatch k = StubAction.fatalUnreachable)
    ∧ (∀ t : ExternType, stubDispatch (externKindCode t) ≠ StubAction.fatalUnreachable) := by
  constructor
  · intro k h1 h2 h3 h4 h5
    simp [stubDispatch, h1, h2, h3, h4, h5]
  · intro t
    cases t <;> simp [stubDispatch, externKindCode, kindFunction, kindTable, kindMemory,
      kindGlobal, kindExceptionType]

/-- Witness for C8: the out-of-range kind value 9 hits the fatal default
branch. -/
theorem C8_witness : stubDispatch 9 = StubAction.fatalUnreachable :=
  C8_default_branch_fatal.1 9 (by decide) (by decide) (by decide) (by decide) (by decide)

/-- C9: the stub for a global import is a global whose type (value type
and mutability) is exactly the requested one, initialized to the zero
value of that value type. -/
theorem C9_global_stub (e : String) (gt : GlobalType) :
    getStubObject e (.global gt) = Object.global gt (zeroValue gt.valueType)
    ∧ getObjectType (getStubObject e (.global gt)) = ExternType.global gt :=
  ⟨rfl, rfl⟩

/-- A run environment without a shim: load succeeds, no imports, the
module instantiates, exports a nullary `main`, has no start function. -/
def envNoShim : RunEnv :=
  { loadOk := true, shimPresent := false, shimEnv := [], shimAsm2wasm := []
    imports := [], instantiateOk := true, hasStart := false
    exports := [("main", Object.func { params := [], results := [] } [] "")]
    filename := "a.wast", cliArgs := [], invokeResults := [] }

/-- Counterexample to C3: in `envNoShim` the shim was not instantiated,
yet the shim global-initializer stage executes (the call to
`Emscripten::initializeGlobals` in `run` is unconditional). -/
theorem C3_counterexample :
    envNoShim.shimPresent = false
    ∧ Stage.shimGlobalInit ∈ (runModel envNoShim).trace := by
  decide

/-- C3 (amended): whenever the pipeline reaches the post-instantiation
point, the shim global-initializer stage executes after the optional
start stage and immediately before entry-point lookup, unconditionally —
whether or not the shim was instantiated. -/
theorem C3_shim_global_init_stage (env : RunEnv)
    (hload : env.loadOk = true)
    (hlink : (linkModule env.registry env.imports).success = true)
    (hinst : env.instantiateOk = true) :
    ∃ tail, (runModel env).trace =
      [Stage.load, Stage.compile, Stage.instantiateShim, Stage.link, Stage.instantiateMain]
        ++ (if env.hasStart then [Stage.runStart] else [])
        ++ [Stage.shimGlobalInit, Stage.lookupEntry] ++ tail := by
  rw [runModel_ok env hload hlink hinst]
  cases hcase : lookupEntry env.exports with
  | none => exact ⟨[], by simp⟩
  | some f =>
    by_cases h2 : objectArity f = 2
    · by_cases hs : env.shimPresent = true
      · exact ⟨[.marshalArgs, .invoke, .mapExit], by simp [h2, hs]⟩
      · exact ⟨[.marshalArgs], by simp [h2, hs]⟩
    · by_cases hp : objectArity f > 0
      · exact ⟨[], by simp [h2, hp]⟩
      · exact ⟨[.invoke, .mapExit], by simp [h2, hp]⟩

/-- Witness for C3 (amended): the stage order holds in `envNoShim`. -/
theorem C3_witness :
    ∃ tail, (runModel envNoShim).trace =
      [Stage.load, Stage.compile, Stage.instantiateShim, Stage.link, Stage.instantiateMain]
        ++ (if envNoShim.hasStart then [Stage.runStart] else [])
        ++ [Stage.shimGlobalInit, Stage.lookupEntry] ++ tail :=
  C3_shim_global_init_stage envNoShim (by decide) (by decide) (by decide)

/-- C4: entry-point invocation dispatches on arity.  Arity 0 invokes
without marshalling; arity 2 with the shim present marshals the filename
followed by the argv tokens and invokes; arity 2 without the shim dies
on the `wavmAssert` precondition; any other arity aborts with the
failure status and the arity diagnostic, without invoking. -/
theorem C4_arity_dispatch (env : RunEnv) (f : Object)
    (hload : env.loadOk = true)
    (hlink : (linkModule env.registry env.imports).success = true)
    (hinst : env.instantiateOk = true)
    (hentry : lookupEntry env.exports = some f) :
    (objectArity f = 0 →
      (runModel env).marshaled = none
        ∧ Stage.invoke ∈ (runModel env).trace
        ∧ (runModel env).exit = .status (mapResults env.invokeResults))
    ∧ (objectArity f = 2 → env.shimPresent = true →
      (runModel env).marshaled = some (env.filename :: env.cliArgs)
        ∧ Stage.invoke ∈ (runModel env).trace
        ∧ (runModel env).exit = .status (mapResults env.invokeResults))
    ∧ (objectArity f = 2 → env.shimPresent = false →
      (runModel env).exit = .fatalAssert ∧ Stage.invoke ∉ (runModel env).trace)
    ∧ (objectArity f ≠ 0 → objectArity f ≠ 2 →
      (runModel env).exit = .status EXIT_FAILURE
        ∧ Diag.badArity (objectArity f) ∈ (runModel env).diags
        ∧ Stage.invoke ∉ (runModel env).trace) := by
  rw [runModel_ok env hload hlink hinst]
  refine ⟨?_, ?_, ?_, ?_⟩
  · intro h0
    have h2 : ¬objectArity f = 2 := by omega
    simp [hentry, h0, h2, buildArgStrings]
  · intro h2 hs
    simp [hentry, h2, hs, buildArgStrings]
  · intro h2 hs
    exact ⟨by simp [hentry, h2, hs], by simp [hentry, h2, hs]⟩
  · intro h0 h2
    have hp : objectArity f > 0 := by omega
    exact ⟨by simp [hentry, h2, hp], by simp [hentry, h2, hp], by simp [hentry, h2, hp]⟩

/-- A run environment whose `main` takes one parameter. -/
def envArity1 : RunEnv :=
  { loadOk := true, shimPresent := false, shimEnv := [], shimAsm2wasm := []
    imports := [], instantiateOk := true, hasStart := false
    exports := [("main", Object.func { params := [.i32], results := [] } [] "")]
    filename := "a.wast", cliArgs := [], invokeResults := [] }

/-- Witness for C4: a one-parameter `main` aborts with the failure
status and the arity diagnostic, and never reaches the invoke stage. -/
theorem C4_witness :
    (runModel envArity1).exit = ExitRes.status EXIT_FAILURE
    ∧ Diag.badArity 1 ∈ (runModel envArity1).diags
    ∧ Stage.invoke ∉ (runModel envArity1).trace :=
  (C4_arity_dispatch envArity1 (Object.func { params := [.i32], results := [] } [] "")
    (by decide) (by decide) (by decide) (by decide)).2.2.2 (by decide) (by decide)

/-- Counterexample to C6: a `--help` token after the filename is still
interpreted as an option (the help test in `main`'s scan loop precedes
the filename test), so it is not passed through verbatim as a program
argument. -/
theorem C6_counterexample :
    scanArgs ["prog.wast", "--help", "x"] = ScanResult.helpExit
    ∧ scanArgs ["prog.wast", "--help", "x"] ≠ ScanResult.runWith "prog.wast" ["--help", "x"] := by
  decide

/-- C6 (amended): after the filename has been scanned, the next token is
still tested against `--help`/`-h` — if it is one of these, usage is
printed and the process exits with success; any other token terminates
option scanning and it, together with every remaining token, is passed
through verbatim as a program argument. -/
theorem C6_scan_passthrough (f tok : String) (rest : List String)
    (hf1 : f ≠ "--help") (hf2 : f ≠ "-h")
    (ht1 : tok ≠ "--help") (ht2 : tok ≠ "-h") :
    scanArgs (f :: tok :: rest) = ScanResult.runWith f (tok :: rest)
    ∧ scanArgs (f :: "--help" :: rest) = ScanResult.helpExit
    ∧ scanArgs (f :: "-h" :: rest) = ScanResult.helpExit := by
  refine ⟨?_, ?_, ?_⟩ <;> simp [scanArgs, scanLoop, hf1, hf2, ht1, ht2]

/-- Witness for C6 (amended): concrete scans. -/
theorem C6_witness :
    scanArgs ["a.wast", "x", "y"] = ScanResult.runWith "a.wast" ["x", "y"]
    ∧ scanArgs ["a.wast", "--help", "y"] = ScanResult.helpExit
    ∧ scanArgs ["a.wast", "-h", "y"] = ScanResult.helpExit :=
  C6_scan_passthrough "a.wast" "x" ["y"] (by decide) (by decide) (by decide) (by decide)

/-- C7: entry-point lookup prefers `main`: when `main` is exported as a
function it is chosen; when the `main` lookup yields no function, the
`_main` lookup decides; when neither yields a function, the run aborts
with the failure status and the "does not export main function"
diagnostic, without invoking. -/
theorem C7_entry_lookup (exports : Instance) (env : RunEnv) :
    (∀ ft body lbl, getInstanceExport exports "main" = some (Object.func ft body lbl) →
        lookupEntry exports = some (Object.func ft body lbl))
    ∧ (asFunctionNullable (getInstanceExport exports "main") = none →
        lookupEntry exports = asFunctionNullable (getInstanceExport exports "_main"))
    ∧ (env.loadOk = true → (linkModule env.registry env.imports).success = true →
        env.instantiateOk = true → lookupEntry env.exports = none →
        (runModel env).exit = .status EXIT_FAILURE
          ∧ Diag.noMainExport ∈ (runModel env).diags
          ∧ Stage.invoke ∉ (runModel env).trace) := by
  refine ⟨?_, ?_, ?_⟩
  · intro ft body lbl h
    simp [lookupEntry, h, asFunctionNullable]
  · intro h
    simp [lookupEntry, h]
  · intro hload hlink hinst hnone
    rw [runModel_ok env hload hlink hinst]
    exact ⟨by simp [hnone], by simp [hnone], by simp [hnone]⟩

/-- Export table with both `main` and `_main` exported as functions. -/
def exportsBoth : Instance :=
  [("main", Object.func { params := [], results := [] } [] "m"),
   ("_main", Object.func { params := [], results := [] } [] "u")]

/-- A run environment whose module exports neither `main` nor `_main`. -/
def envNoEntry : RunEnv :=
  { loadOk := true, shimPresent := false, shimEnv := [], shimAsm2wasm := []
    imports := [], instantiateOk := true, hasStart := false
    exports := [("other", Object.func { params := [], results := [] } [] "")]
    filename := "a.wast", cliArgs := [], invokeResults := [] }

/-- Witness for C7: with both entry points exported, `main` is chosen;
with neither, the run fails with the no-main diagnostic. -/
theorem C7_witness :
    lookupEntry exportsBoth = some (Object.func { params := [], results := [] } [] "m")
    ∧ ((runModel envNoEntry).exit = .status EXIT_FAILURE
        ∧ Diag.noMainExport ∈ (runModel envNoEntry).diags
        ∧ Stage.invoke ∉ (runModel envNoEntry).trace) :=
  ⟨(C7_entry_lookup exportsBoth envNoEntry).1
      { params := [], results := [] } [] "m" (by decide),
   (C7_entry_lookup exportsBoth envNoEntry).2.2
      (by decide) (by decide) (by decide) (by decide)⟩

/-- C10: a literal `--` token after the filename is not stripped: the
scan passes it through, and the arity-2 marshalled argument-string list
is the filename followed by every remaining token starting at the token
that terminated option scanning, so `--` itself appears verbatim. -/
theorem C10_dashdash_not_stripped (f : String) (rest : List String) (env : RunEnv)
    (fobj : Object)
    (hf1 : f ≠ "--help") (hf2 : f ≠ "-h")
    (hload : env.loadOk = true)
    (hlink : (linkModule env.registry env.imports).success = true)
    (hinst : env.instantiateOk = true)
    (hentry : lookupEntry env.exports = some fobj)
    (harity : objectArity fobj = 2)
    (hshim : env.shimPresent = true)
    (hfile : env.filename = f)
    (hargs : env.cliArgs = "--" :: rest) :
    scanArgs (f :: "--" :: rest) = ScanResult.runWith f ("--" :: rest)
    ∧ (runModel env).marshaled = some (f :: "--" :: rest)
    ∧ "--" ∈ buildArgStrings f ("--" :: rest) := by
  refine ⟨?_, ?_, ?_⟩
  · simp [scanArgs, scanLoop, hf1, hf2]
  · rw [runModel_ok env hload hlink hinst]
    simp [hentry, harity, hshim, buildArgStrings, hfile, hargs]
  · simp [buildArgStrings]

/-- A run environment with the shim present and an arity-2 `main`,
invoked as `a.wast -- b`. -/
def envDashDash : RunEnv :=
  { loadOk := true, shimPresent := true, shimEnv := [], shimAsm2wasm := []
    imports := [], instantiateOk := true, hasStart := false
    exports := [("main", Object.func { params := [.i32, .i32], results := [.i32] } [] "")]
    filename := "a.wast", cliArgs := ["--", "b"], invokeResults := [] }

/-- Witness for C10: with `a.wast -- b`, the scan keeps `--` and the
marshalled list is `["a.wast", "--", "b"]`. -/
theorem C10_witness :
    scanArgs ["a.wast", "--", "b"] = ScanResult.runWith "a.wast" ["--", "b"]
    ∧ (runModel envDashDash).marshaled = some ["a.wast", "--", "b"]
    ∧ "--" ∈ buildArgStrings "a.wast" ["--", "b"] :=
  C10_dashdash_not_stripped "a.wast" ["b"] envDashDash
    (Object.func { params := [.i32, .i32], results := [.i32] } [] "")
    (by decide) (by decide) (by decide) (by decide) (by decide) (by decide)
    (by decide) (by decide) (by decide) (by decide)

end WavmRun
